import Mathlib

/-!
# Terminal Mentor — shallow embedding and verification

Shallow embedding of the command dispatcher, quiz state machine, session
statistics and recall buffer of `src/app/src/app/page.tsx` (a single React
page).  React state hooks become an explicit `Session` record; each form
submission becomes one application of `submitLine`.  Conventions:

* JavaScript numbers used as counters (`answered`, `correct`, `streak`,
  `attempts`) are embedded as `Nat`; they are only ever incremented or reset.
* `Math.round` on the accuracy expression is embedded with exact rational
  arithmetic (`Int.floor (q + 1/2)`), the real-number semantics the source
  relies on for the small counter values involved.
* `Math.floor(Math.random() * n)` draws are embedded by threading an
  arbitrary index `r : Nat`, used modulo the candidate count; the claims
  under study are independent of the distribution.
* String primitives `trim`, `toLowerCase`, `toUpperCase`, `slice`,
  `split(" ")`, `join(sep)`, `padEnd` are embedded by hand-rolled
  structurally recursive functions (`jsTrim`, `jsToLower`, `jsToUpper`,
  `jsSplitOnSpace`, `jsJoin`, `padEnd`) mirroring the JavaScript semantics
  on the character list, so that closed instances evaluate inside the
  kernel.
* The content catalog (`@/data/knowledge`) is not part of the dispatcher
  core; it is embedded as an abstract, immutable `ContentStore` record of
  query functions, exactly the interface the page imports.
* `HistoryEntry.id` (a `Date.now`/`Math.random` cookie used only as a React
  render key) is dropped from the embedding; no claim concerns it.
-/

/-- Role tag of a transcript entry (`type HistoryRole`). -/
inductive HistoryRole where
  | system
  | user
  | assistant
deriving DecidableEq

/-- One transcript entry (`type HistoryEntry`, minus the render-key `id`). -/
structure HistoryEntry where
  role : HistoryRole
  content : List String
deriving DecidableEq

/-- Quiz question record (`type QuizQuestion` from the content module). -/
structure QuizQuestion where
  prompt : String
  answer : String
  explanation : String
  choices : Option (List String)
deriving DecidableEq

/-- The non-null alternative of `type PendingState` (`type: "quiz"`). -/
structure PendingQuiz where
  question : QuizQuestion
  attempts : Nat
  revealedHint : Bool
deriving DecidableEq

/-- Session statistics (`type SessionStats`). -/
structure SessionStats where
  answered : Nat
  correct : Nat
  streak : Nat
deriving DecidableEq

/-- A recommended resource of a topic (fields used by `formatResources`). -/
structure Resource where
  title : String
  url : String
  description : String
deriving DecidableEq

/-- A guided lab of a topic (fields used by `formatLabs`). -/
structure Lab where
  title : String
  difficulty : String
  time : String
  goal : String
  steps : List String
  checklist : List String
deriving DecidableEq

/-- A study topic (fields of `type Topic` used by the page). -/
structure Topic where
  id : String
  title : String
  summary : String
  fundamentals : List String
  advanced : List String
  quickWins : List String
  warningSigns : List String
  studyPath : List String
  resources : List Resource
  labs : List Lab
  quiz : List QuizQuestion
deriving DecidableEq

/-- A glossary entry (fields used by the `glossary` command). -/
structure GlossaryEntry where
  term : String
  definition : String
  context : String
deriving DecidableEq

/-- The query interface of `@/data/knowledge` consumed by the page. -/
structure ContentStore where
  topics : List Topic
  glossary : List GlossaryEntry
  studyRoadmap : List String
  dailySuggestions : List String
  motivationalTips : List String
  findTopicByAlias : String → Option Topic
  searchTopics : String → List Topic
  lookupGlossary : String → Option GlossaryEntry
  matchQuestionToTopic : String → Option Topic
  getAllQuizQuestions : List QuizQuestion

/-- The one-entry boot transcript (`initialHistory`). -/
def initialHistory : List HistoryEntry :=
  [{ role := .system,
     content :=
       ["Inicializando Terminal Mentor v1.0 ...",
        "🛡️ Asistente interactivo para aprender y practicar ciberseguridad.",
        "Escribe `help` para ver comandos disponibles o `topics` para explorar rutas de estudio."] }]

/-- `const MAX_HISTORY_COMMANDS = 30`. -/
def MAX_HISTORY_COMMANDS : Nat := 30

/-- `JSON`-free helper: JavaScript `Array.prototype.join(sep)`. -/
def jsJoin (sep : String) : List String → String
  | [] => ""
  | [s] => s
  | s :: rest => s ++ sep ++ jsJoin sep rest

/-- JavaScript `String.prototype.split(" ")` on the character list:
consecutive separators produce empty fields, as in JavaScript. -/
def jsSplitSpaceChars : List Char → List (List Char)
  | [] => [[]]
  | c :: rest =>
    match jsSplitSpaceChars rest with
    | [] => [[]]
    | g :: gs => if c = ' ' then [] :: g :: gs else (c :: g) :: gs

/-- JavaScript `String.prototype.split(" ")`. -/
def jsSplitOnSpace (s : String) : List String :=
  (jsSplitSpaceChars s.data).map String.mk

/-- JavaScript `String.prototype.padEnd(n, " ")`. -/
def padEnd (s : String) (n : Nat) : String :=
  s ++ String.mk (List.replicate (n - s.length) ' ')

/-- `formatList` from the page: a `#`-headed title plus numbered items. -/
def formatList (title : String) (items : List String) : List String :=
  ("# " ++ title) :: items.mapIdx (fun index item => "  " ++ toString (index + 1) ++ ". " ++ item)

/-- `formatBullets` from the page. -/
def formatBullets (items : List String) : List String :=
  items.map (fun item => "• " ++ item)

/-- JavaScript whitespace test used by `trim` (ASCII range). -/
def jsIsWhitespace (c : Char) : Bool :=
  c = ' ' ∨ c = '\t' ∨ c = '\n' ∨ c = '\r'

/-- JavaScript `String.prototype.trim()`. -/
def jsTrim (s : String) : String :=
  String.mk (((s.data.dropWhile jsIsWhitespace).reverse.dropWhile jsIsWhitespace).reverse)

/-- JavaScript `String.prototype.toLowerCase()` (ASCII range). -/
def jsToLower (s : String) : String := String.mk (s.data.map Char.toLower)

/-- JavaScript `String.prototype.toUpperCase()` (ASCII range). -/
def jsToUpper (s : String) : String := String.mk (s.data.map Char.toUpper)

/-- `normalizeInput` from the page: `value.trim()`. -/
def normalizeInput (value : String) : String := jsTrim value

/-- Exact-arithmetic embedding of JavaScript `Math.round` on a nonnegative
rational: round half toward positive infinity. -/
def mathRound (q : ℚ) : ℤ := ⌊q + 1/2⌋

/-- The accuracy value computed inside `buildSessionStatus`:
`stats.answered === 0 ? 0 : Math.round((stats.correct / stats.answered) * 100)`. -/
def sessionAccuracy (stats : SessionStats) : ℤ :=
  if stats.answered = 0 then 0
  else mathRound ((stats.correct : ℚ) / (stats.answered : ℚ) * 100)

/-- `buildSessionStatus` from the page. -/
def buildSessionStatus (stats : SessionStats) : String :=
  "📊 Sesión | Resueltas: " ++ toString stats.answered ++
    " | Correctas: " ++ toString stats.correct ++
    " | Precisión: " ++ toString (sessionAccuracy stats) ++
    "% | Racha: " ++ toString stats.streak

/-- The hint text revealed by the quiz machine:
`question.answer.slice(0, Math.ceil(question.answer.length / 2))`.
`Math.ceil(n / 2)` on a natural count `n` is `(n + 1) / 2` in natural
division; the identity with the exact rational ceiling is proved in
`quiz_hint_reveal_once`. -/
def hintHalf (answer : String) : String :=
  String.mk (answer.data.take ((answer.length + 1) / 2))

/-- `handleQuizAnswer` from the page, as a pure function: given the current
statistics, the pending quiz and the submitted value, return the assistant
output lines, the next pending state and the next statistics. -/
def handleQuizAnswer (stats : SessionStats) (pending : PendingQuiz) (value : String) :
    List String × Option PendingQuiz × SessionStats :=
  let normalized := jsToLower (jsTrim value)
  let question := pending.question
  if normalized = "hint" ∨ normalized = "pista" then
    if pending.revealedHint then
      (["⚠️ Ya mostré una pista para esta pregunta. Intenta una respuesta."],
       some pending, stats)
    else
      (["Pista: " ++ hintHalf question.answer ++ "..."],
       some { pending with revealedHint := true }, stats)
  else if normalized = "skip" ∨ normalized = "omitir" then
    let updatedStats : SessionStats :=
      { answered := stats.answered + 1, correct := stats.correct, streak := 0 }
    (["Pregunta omitida. Respuesta correcta: " ++ question.answer,
      "Explicación: " ++ question.explanation,
      buildSessionStatus updatedStats],
     none, updatedStats)
  else if normalized = jsToLower question.answer then
    let updatedStats : SessionStats :=
      { answered := stats.answered + 1, correct := stats.correct + 1,
        streak := stats.streak + 1 }
    (["✅ ¡Correcto!",
      "Explicación: " ++ question.explanation,
      buildSessionStatus updatedStats,
      "Escribe `quiz` para otra pregunta o explora con `lesson <tema>`."],
     none, updatedStats)
  else
    let attempts := pending.attempts + 1
    if attempts ≥ 2 then
      let updatedStats : SessionStats :=
        { answered := stats.answered + 1, correct := stats.correct, streak := 0 }
      (["❌ Respuesta incorrecta.",
        "La respuesta correcta es: " ++ question.answer,
        "Explicación: " ++ question.explanation,
        buildSessionStatus updatedStats,
        "Puedes escribir `quiz` para intentar otra o `lesson <tema>` para repasar."],
       none, updatedStats)
    else
      (["Respuesta incorrecta. Puedes intentar nuevamente, pedir `hint` o escribir `skip`."],
       some { pending with attempts := attempts }, stats)

/-- `helpCards` from the page. -/
def helpCards : List (String × String) :=
  [("help", "Muestra los comandos disponibles."),
   ("topics", "Lista temáticas principales y resumen."),
   ("lesson <tema>", "Explica un tema en profundidad."),
   ("resources [tema]", "Recursos recomendados por tema."),
   ("labs [tema]", "Laboratorios prácticos guiados."),
   ("quiz [tema]", "Pregunta de repaso con opción a pista."),
   ("glossary <término>", "Definición rápida de conceptos."),
   ("question <tu duda>", "Consulta libre con contexto."),
   ("search <palabra>", "Busca temas relacionados."),
   ("roadmap", "Ruta de aprendizaje sugerida."),
   ("suggest", "Actividad del día para practicar."),
   ("status", "Estadísticas de sesión y motivación."),
   ("clear", "Limpia el historial de la terminal.")]

/-- `summarizeTopic` from the page. -/
def summarizeTopic (topic : Topic) : List String :=
  ["== " ++ jsToUpper topic.title ++ " ==", topic.summary, "", "Fundamentos clave:"] ++
  formatBullets topic.fundamentals ++
  ["", "Nivel intermedio/avanzado:"] ++ formatBullets topic.advanced ++
  ["", "Quick wins:"] ++ formatBullets topic.quickWins ++
  ["", "Alertas tempranas:"] ++ formatBullets topic.warningSigns ++
  ["", "Ruta sugerida:"] ++ formatBullets topic.studyPath

/-- `formatResources` from the page; `none` is the `undefined` argument. -/
def formatResources (allTopics : List Topic) : Option Topic → List String
  | none =>
    "🔗 Recursos recomendados por temática:" ::
      (allTopics.flatMap (fun item =>
        ("> " ++ item.title) ::
          item.resources.map (fun resource =>
            "  - " ++ resource.title ++ ": " ++ resource.url)))
  | some topic =>
    ("Recursos para " ++ topic.title ++ ":") ::
      topic.resources.map (fun resource =>
        "- " ++ resource.title ++ ": " ++ resource.url ++ " (" ++ resource.description ++ ")")

/-- `formatLabs` from the page; `none` is the `undefined` argument. -/
def formatLabs (allTopics : List Topic) : Option Topic → List String
  | none =>
    ("🧪 Laboratorios disponibles:" ::
      (allTopics.flatMap (fun item =>
        item.labs.map (fun lab =>
          "[" ++ item.title ++ "] " ++ lab.title ++ " (" ++ lab.difficulty ++ " · " ++
            lab.time ++ ") -> " ++ lab.goal)))) ++
      ["Usa `labs <tema>` para ver pasos detallados."]
  | some topic =>
    match topic.labs with
    | [] => ["Aún no hay laboratorios documentados para " ++ topic.title ++ "."]
    | lab :: _ =>
      ["🧪 " ++ lab.title ++ " | Dificultad: " ++ lab.difficulty ++ " | Duración: " ++ lab.time,
       "Objetivo: " ++ lab.goal, "", "Pasos:"] ++
      formatBullets lab.steps ++
      ["", "Checklist de éxito:"] ++ formatBullets lab.checklist

/-- `pickQuizQuestion` from the page; the random draw
`Math.floor(Math.random() * len)` becomes the supplied index `r` modulo the
candidate count. -/
def pickQuizQuestion (store : ContentStore) (r : Nat) (topicAlias : String) :
    Option QuizQuestion :=
  let fromTopic : Option QuizQuestion :=
    if topicAlias = "" then none
    else
      match store.findTopicByAlias topicAlias with
      | some matchingTopic =>
        if matchingTopic.quiz.length > 0 then
          matchingTopic.quiz.get? (r % matchingTopic.quiz.length)
        else none
      | none => none
  match fromTopic with
  | some q => some q
  | none =>
    let questions := store.getAllQuizQuestions
    if questions.length = 0 then none
    else questions.get? (r % questions.length)

/-- Fallback topic record; the source indexes `topics[0]` and would fault on
an empty catalog, a path no claim exercises. -/
def emptyTopic : Topic :=
  { id := "", title := "", summary := "", fundamentals := [], advanced := [],
    quickWins := [], warningSigns := [], studyPath := [], resources := [],
    labs := [], quiz := [] }

/-- `answerNaturalQuestion` from the page. -/
def answerNaturalQuestion (store : ContentStore) (query : String) : List String :=
  let topic := (store.matchQuestionToTopic query).getD (store.topics.getD 0 emptyTopic)
  ["Tema sugerido: " ++ topic.title,
   "Resumen: " ++ topic.summary,
   "",
   "Puntos clave:"] ++
  formatBullets (topic.fundamentals.take 3) ++
  ["", "Recomendación:",
   "• Revisa la lección con `lesson " ++ topic.id ++ "`.",
   "• Programa un laboratorio práctico con `labs " ++ topic.id ++ "`."]

/-- `list[Math.floor(Math.random() * list.length)]` with supplied index. -/
def listPick (l : List String) (r : Nat) : String :=
  l.getD (r % l.length) "undefined"

/-- State effect a dispatched command requests besides its output lines:
nothing, `setPendingState` to a fresh quiz, or `resetTerminal`. -/
inductive CommandEffect where
  | output
  | startQuiz (question : QuizQuestion)
  | resetHistory
deriving DecidableEq

/-- Parse step inside `handleCommand`:
`const [command, ...argsParts] = trimmed.split(" ")` with
`commandKey = command.toLowerCase()` and
`argString = argsParts.join(" ").trim()`. -/
def parseCommandLine (trimmed : String) : String × String :=
  match jsSplitOnSpace trimmed with
  | [] => ("", "")
  | command :: argsParts => (jsToLower command, jsTrim (jsJoin " " argsParts))

/-- Front part of `handleCommand`: trim, drop empty input, split into the
lower-cased command token and the argument string. -/
def parseLine (rawInput : String) : Option (String × String) :=
  let trimmed := normalizeInput rawInput
  if trimmed = "" then none
  else some (parseCommandLine trimmed)

/-- The `switch (commandKey)` body of `handleCommand`: map the command token
and argument string to assistant output lines plus a state effect. -/
def dispatchParsed (store : ContentStore) (r : Nat) (stats : SessionStats)
    (commandKey : String) (argString : String) : List String × CommandEffect :=
  if commandKey = "help" ∨ commandKey = "?" then
      ("Comandos disponibles:" ::
        helpCards.map (fun card => padEnd card.1 18 ++ " - " ++ card.2), .output)
    else if commandKey = "topics" then
      (("Temas activos:" ::
        store.topics.map (fun topic =>
          padEnd topic.id 12 ++ " | " ++ topic.title ++ " -> " ++ topic.summary)) ++
        ["Explora detalles con `lesson <tema>`."], .output)
    else if commandKey = "lesson" ∨ commandKey = "tema" ∨ commandKey = "topic" then
      if argString = "" then
        (["Debes indicar un tema. Ejemplo: `lesson redes`"], .output)
      else
        match store.findTopicByAlias argString with
        | none =>
          let related := store.searchTopics argString
          if related.length = 0 then
            (["No encontré un tema llamado \"" ++ argString ++
              "\". Usa `topics` para ver opciones."], .output)
          else
            ("No encontré coincidencia exacta. ¿Quizás buscas alguno de estos?" ::
              related.map (fun item => "- " ++ item.id ++ ": " ++ item.title), .output)
        | some topic => (summarizeTopic topic, .output)
    else if commandKey = "resources" ∨ commandKey = "recursos" then
      (formatResources store.topics
        (if argString = "" then none else store.findTopicByAlias argString), .output)
    else if commandKey = "labs" ∨ commandKey = "lab" then
      (formatLabs store.topics
        (if argString = "" then none else store.findTopicByAlias argString), .output)
    else if commandKey = "quiz" ∨ commandKey = "reto" then
      match pickQuizQuestion store r argString with
      | none => (["No hay preguntas disponibles por ahora."], .output)
      | some question =>
        (("Pregunta: " ++ question.prompt) ::
          ((match question.choices with
            | some choices => ["Opciones: " ++ jsJoin " | " choices]
            | none => []) ++
           ["Responde, pide `hint` para una pista o escribe `skip` para saltar."]),
          .startQuiz question)
    else if commandKey = "glossary" ∨ commandKey = "glosario" then
      if argString = "" then
        (store.glossary.map (fun entry => entry.term ++ ": " ++ entry.definition),
          .output)
      else
        match store.lookupGlossary argString with
        | none =>
          (["No encontré \"" ++ argString ++
            "\". Usa `glossary` para listar conceptos."], .output)
        | some entry =>
          ([entry.term ++ ": " ++ entry.definition,
            "Contexto: " ++ entry.context], .output)
    else if commandKey = "search" ∨ commandKey = "buscar" then
      if argString = "" then
        (["Incluye un término. Ejemplo: `search mitre`"], .output)
      else
        let results := store.searchTopics argString
        if results.length = 0 then
          (["No hay coincidencias para \"" ++ argString ++
            "\". Intenta con otro término."], .output)
        else
          (("Resultados (" ++ toString results.length ++ "):") ::
            results.map (fun result =>
              result.id ++ " -> " ++ result.title ++ " | " ++ result.summary), .output)
    else if commandKey = "roadmap" ∨ commandKey = "ruta" then
      (formatList "Ruta sugerida de 6 semanas" store.studyRoadmap, .output)
    else if commandKey = "suggest" ∨ commandKey = "actividad" then
      (["Actividad recomendada: " ++ listPick store.dailySuggestions r,
        "Comparte conclusiones en tu bitácora personal."], .output)
    else if commandKey = "status" then
      ([buildSessionStatus stats, "💡 " ++ listPick store.motivationalTips r], .output)
    else if commandKey = "question" ∨ commandKey = "pregunta" then
      if argString = "" then
        (["Formula tu duda. Ejemplo: `question diferencia entre ids e ips`."], .output)
      else
        (answerNaturalQuestion store argString, .output)
    else if commandKey = "clear" ∨ commandKey = "cls" then
      (["Pantalla limpia. Continuemos."], .resetHistory)
    else
      (["Comando desconocido: " ++ commandKey,
        "Escribe `help` para ver opciones disponibles."], .output)

/-- `handleCommand` from the page: parse the raw input and run the switch;
`none` when the trimmed input is empty (the early `return`). -/
def handleCommand (store : ContentStore) (r : Nat) (stats : SessionStats)
    (rawInput : String) : Option (List String × CommandEffect) :=
  match parseLine rawInput with
  | none => none
  | some (commandKey, argString) => some (dispatchParsed store r stats commandKey argString)

/-- The mutable React session state of the page: transcript history, pending
quiz, statistics and the command recall buffer. -/
structure Session where
  history : List HistoryEntry
  pending : Option PendingQuiz
  stats : SessionStats
  commandHistory : List String
deriving DecidableEq

/-- An assistant-role transcript entry (`showAssistant`). -/
def mkAssistant (lines : List String) : HistoryEntry :=
  { role := .assistant, content := lines }

/-- Initial session: `useState` initializers of the page. -/
def initialSession : Session :=
  { history := initialHistory, pending := none,
    stats := { answered := 0, correct := 0, streak := 0 }, commandHistory := [] }

/-- Apply `handleCommand` to the session: append the assistant entry and
perform the requested effect.  The `clear` branch runs `resetTerminal`,
which replaces the history with `initialHistory` and nulls the pending
state before the confirmation line is appended. -/
def dispatchCommand (store : ContentStore) (r : Nat) (s : Session) (line : String) :
    Session :=
  match handleCommand store r s.stats line with
  | none => s
  | some (lines, .output) => { s with history := s.history ++ [mkAssistant lines] }
  | some (lines, .startQuiz question) =>
    { s with history := s.history ++ [mkAssistant lines],
             pending := some { question := question, attempts := 0, revealedHint := false } }
  | some (lines, .resetHistory) =>
    { s with history := initialHistory ++ [mkAssistant lines], pending := none }

/-- `handleSubmit` from the page: one form submission.  The trimmed line, if
nonempty, is logged as a user entry, pushed onto the deduplicated recall
buffer capped at `MAX_HISTORY_COMMANDS`, and then routed to the quiz state
machine when a quiz is pending, else to the command dispatcher. -/
def submitLine (store : ContentStore) (r : Nat) (s : Session) (inputValue : String) :
    Session :=
  let normalized := normalizeInput inputValue
  if normalized = "" then s
  else
    let s1 : Session :=
      { s with
        history := s.history ++ [{ role := .user, content := [normalized] }],
        commandHistory :=
          (normalized :: s.commandHistory.filter (fun item => item ≠ normalized)).take
            MAX_HISTORY_COMMANDS }
    match s.pending with
    | some pendingQuiz =>
      let res := handleQuizAnswer s.stats pendingQuiz normalized
      { s1 with history := s1.history ++ [mkAssistant res.1],
                pending := res.2.1, stats := res.2.2 }
    | none => dispatchCommand store r s1 normalized

/-- A whole session: fold `submitLine` over a list of (random index, line)
pairs starting from the initial state. -/
def runSession (store : ContentStore) (inputs : List (Nat × String)) : Session :=
  inputs.foldl (fun s p => submitLine store p.1 s p.2) initialSession

/-- A tiny concrete catalog used to evaluate the model on closed inputs. -/
def sampleQuestion : QuizQuestion :=
  { prompt := "¿Qué dispositivo filtra tráfico de red?",
    answer := "Firewall",
    explanation := "Un firewall filtra el tráfico según reglas.",
    choices := some ["Firewall", "Switch"] }

/-- Concrete topic for closed evaluations. -/
def sampleTopic : Topic :=
  { id := "redes", title := "Redes", summary := "Defensa de redes.",
    fundamentals := ["Modelo OSI", "TCP/IP", "Puertos"],
    advanced := ["Segmentación"], quickWins := ["Escaneo básico"],
    warningSigns := ["Tráfico anómalo"], studyPath := ["Curso de redes"],
    resources := [{ title := "Guía", url := "https://example.org", description := "Intro" }],
    labs := [], quiz := [sampleQuestion] }

/-- Concrete content store for closed evaluations: one topic, one question. -/
def sampleStore : ContentStore :=
  { topics := [sampleTopic], glossary := [],
    studyRoadmap := [], dailySuggestions := [], motivationalTips := [],
    findTopicByAlias := fun name => if name = "redes" then some sampleTopic else none,
    searchTopics := fun _ => [],
    lookupGlossary := fun _ => none,
    matchQuestionToTopic := fun _ => none,
    getAllQuizQuestions := [sampleQuestion] }

/-- JavaScript `Array.prototype.join` at the character-list level; used to
relate `jsJoin` over `String.mk` groups to plain character lists. -/
def jsJoinChars (sep : List Char) : List (List Char) → List Char
  | [] => []
  | [g] => g
  | g :: rest => g ++ sep ++ jsJoinChars sep rest

/-- A concrete session whose quiz state machine is active on
`sampleQuestion`, used to evaluate the model on closed inputs. -/
def quizActiveSession : Session :=
  { history := initialHistory,
    pending := some { question := sampleQuestion, attempts := 0, revealedHint := false },
    stats := { answered := 0, correct := 0, streak := 0 },
    commandHistory := [] }

/-! ## Generic unfolding lemmas for one submission -/

/-- A line that trims to empty produces no action at all. -/
theorem submitLine_empty (store : ContentStore) (r : Nat) (s : Session) (line : String)
    (h : jsTrim line = "") : submitLine store r s line = s := by
  unfold submitLine normalizeInput
  rw [if_pos h]

/-- With no quiz pending, a nonempty submission logs the user entry, updates
the recall buffer, and runs the command dispatcher. -/
theorem submitLine_dispatch (store : ContentStore) (r : Nat) (s : Session) (line : String)
    (hp : s.pending = none) (hne : jsTrim line ≠ "") :
    submitLine store r s line =
      dispatchCommand store r
        { s with
          history := s.history ++ [{ role := .user, content := [jsTrim line] }],
          commandHistory :=
            (jsTrim line :: s.commandHistory.filter (fun item => item ≠ jsTrim line)).take
              MAX_HISTORY_COMMANDS }
        (jsTrim line) := by
  unfold submitLine normalizeInput
  rw [if_neg hne, hp]

/-- With a quiz pending, a nonempty submission is routed to the quiz state
machine, never to the command dispatcher. -/
theorem submitLine_quiz (store : ContentStore) (r : Nat) (s : Session) (line : String)
    (pq : PendingQuiz) (hp : s.pending = some pq) (hne : jsTrim line ≠ "") :
    submitLine store r s line =
      { history := s.history ++ [{ role := .user, content := [jsTrim line] },
          mkAssistant (handleQuizAnswer s.stats pq (jsTrim line)).1],
        pending := (handleQuizAnswer s.stats pq (jsTrim line)).2.1,
        stats := (handleQuizAnswer s.stats pq (jsTrim line)).2.2,
        commandHistory :=
          (jsTrim line :: s.commandHistory.filter (fun item => item ≠ jsTrim line)).take
            MAX_HISTORY_COMMANDS } := by
  unfold submitLine normalizeInput
  rw [if_neg hne, hp]
  simp [List.append_assoc]

/-- The command dispatcher never touches the statistics. -/
theorem dispatchCommand_stats (store : ContentStore) (r : Nat) (s : Session) (line : String) :
    (dispatchCommand store r s line).stats = s.stats := by
  unfold dispatchCommand
  rcases h : handleCommand store r s.stats line with _ | ⟨lines, eff⟩
  · rfl
  · cases eff <;> rfl

/-- The command dispatcher never touches the recall buffer. -/
theorem dispatchCommand_commandHistory (store : ContentStore) (r : Nat) (s : Session)
    (line : String) :
    (dispatchCommand store r s line).commandHistory = s.commandHistory := by
  unfold dispatchCommand
  rcases h : handleCommand store r s.stats line with _ | ⟨lines, eff⟩
  · rfl
  · cases eff <;> rfl

/-! ## Quiz state machine (claims C2 to C5) -/

/-- C2: while a quiz is active, a submitted line that is not a hint or skip
token and whose trimmed lower-cased form equals the answer compared
case-insensitively resolves the round as correct: `answered`, `correct` and
`streak` each grow by one, the output is the success message, the
explanation, the updated status line and the continue hint, and the pending
state becomes Idle. -/
theorem quiz_correct_answer_resolves
    (stats : SessionStats) (pending : PendingQuiz) (value : String)
    (hHint : jsToLower (jsTrim value) ≠ "hint") (hPista : jsToLower (jsTrim value) ≠ "pista")
    (hSkip : jsToLower (jsTrim value) ≠ "skip") (hOmitir : jsToLower (jsTrim value) ≠ "omitir")
    (hMatch : jsToLower (jsTrim value) = jsToLower pending.question.answer) :
    handleQuizAnswer stats pending value =
      (["✅ ¡Correcto!",
        "Explicación: " ++ pending.question.explanation,
        buildSessionStatus ⟨stats.answered + 1, stats.correct + 1, stats.streak + 1⟩,
        "Escribe `quiz` para otra pregunta o explora con `lesson <tema>`."],
       none,
       (⟨stats.answered + 1, stats.correct + 1, stats.streak + 1⟩ : SessionStats)) := by
  have h12 : ¬(jsToLower (jsTrim value) = "hint" ∨ jsToLower (jsTrim value) = "pista") := by
    rintro (h | h)
    · exact hHint h
    · exact hPista h
  have h34 : ¬(jsToLower (jsTrim value) = "skip" ∨ jsToLower (jsTrim value) = "omitir") := by
    rintro (h | h)
    · exact hSkip h
    · exact hOmitir h
  simp only [handleQuizAnswer]
  rw [if_neg h12, if_neg h34, if_pos hMatch]

/-- C2 witness: the sample question answered with extra whitespace and in
upper case still resolves as correct. -/
theorem quiz_correct_answer_resolves_witness :
    handleQuizAnswer ⟨0, 0, 0⟩ ⟨sampleQuestion, 0, false⟩ "  FIREWALL  " =
      (["✅ ¡Correcto!",
        "Explicación: " ++ sampleQuestion.explanation,
        buildSessionStatus ⟨1, 1, 1⟩,
        "Escribe `quiz` para otra pregunta o explora con `lesson <tema>`."],
       none, (⟨1, 1, 1⟩ : SessionStats)) :=
  quiz_correct_answer_resolves ⟨0, 0, 0⟩ ⟨sampleQuestion, 0, false⟩ "  FIREWALL  "
    (by decide) (by decide) (by decide) (by decide) (by decide)

/-- C3: while a quiz is active, a non-matching answer with `attempts = 0`
keeps the same question pending with `attempts = 1` and statistics
unchanged; with `attempts = 1` the round resolves as failed, incrementing
only `answered`, resetting `streak` to zero, revealing answer and
explanation, and returning to Idle. -/
theorem quiz_wrong_answer_attempts
    (stats : SessionStats) (pending : PendingQuiz) (value : String)
    (hHint : jsToLower (jsTrim value) ≠ "hint") (hPista : jsToLower (jsTrim value) ≠ "pista")
    (hSkip : jsToLower (jsTrim value) ≠ "skip") (hOmitir : jsToLower (jsTrim value) ≠ "omitir")
    (hMiss : jsToLower (jsTrim value) ≠ jsToLower pending.question.answer) :
    (pending.attempts = 0 →
      handleQuizAnswer stats pending value =
        (["Respuesta incorrecta. Puedes intentar nuevamente, pedir `hint` o escribir `skip`."],
         some { pending with attempts := 1 }, stats)) ∧
    (pending.attempts = 1 →
      handleQuizAnswer stats pending value =
        (["❌ Respuesta incorrecta.",
          "La respuesta correcta es: " ++ pending.question.answer,
          "Explicación: " ++ pending.question.explanation,
          buildSessionStatus ⟨stats.answered + 1, stats.correct, 0⟩,
          "Puedes escribir `quiz` para intentar otra o `lesson <tema>` para repasar."],
         none, (⟨stats.answered + 1, stats.correct, 0⟩ : SessionStats))) := by
  have h12 : ¬(jsToLower (jsTrim value) = "hint" ∨ jsToLower (jsTrim value) = "pista") := by
    rintro (h | h)
    · exact hHint h
    · exact hPista h
  have h34 : ¬(jsToLower (jsTrim value) = "skip" ∨ jsToLower (jsTrim value) = "omitir") := by
    rintro (h | h)
    · exact hSkip h
    · exact hOmitir h
  constructor
  · intro hA
    simp only [handleQuizAnswer]
    rw [if_neg h12, if_neg h34, if_neg hMiss, hA]
    norm_num
  · intro hA
    simp only [handleQuizAnswer]
    rw [if_neg h12, if_neg h34, if_neg hMiss, hA]
    norm_num

/-- C3 witness: a wrong answer on the sample question first keeps the round
alive with one attempt recorded, and on the second wrong answer fails the
round. -/
theorem quiz_wrong_answer_attempts_witness :
    handleQuizAnswer ⟨0, 0, 0⟩ ⟨sampleQuestion, 0, false⟩ "switch" =
      (["Respuesta incorrecta. Puedes intentar nuevamente, pedir `hint` o escribir `skip`."],
       some ⟨sampleQuestion, 1, false⟩, (⟨0, 0, 0⟩ : SessionStats)) ∧
    handleQuizAnswer ⟨2, 1, 1⟩ ⟨sampleQuestion, 1, false⟩ "switch" =
      (["❌ Respuesta incorrecta.",
        "La respuesta correcta es: " ++ sampleQuestion.answer,
        "Explicación: " ++ sampleQuestion.explanation,
        buildSessionStatus ⟨3, 1, 0⟩,
        "Puedes escribir `quiz` para intentar otra o `lesson <tema>` para repasar."],
       none, (⟨3, 1, 0⟩ : SessionStats)) :=
  ⟨(quiz_wrong_answer_attempts ⟨0, 0, 0⟩ ⟨sampleQuestion, 0, false⟩ "switch"
      (by decide) (by decide) (by decide) (by decide) (by decide)).1 rfl,
   (quiz_wrong_answer_attempts ⟨2, 1, 1⟩ ⟨sampleQuestion, 1, false⟩ "switch"
      (by decide) (by decide) (by decide) (by decide) (by decide)).2 rfl⟩

/-- C4: while a quiz is active, the first hint request reveals exactly the
first ceil(answer.length / 2) characters of the answer followed by an
ellipsis and sets `revealedHint`, leaving question and attempts untouched;
any later hint request only emits a warning and changes nothing. -/
theorem quiz_hint_reveal_once
    (stats : SessionStats) (pending : PendingQuiz) (value : String)
    (hTok : jsToLower (jsTrim value) = "hint" ∨ jsToLower (jsTrim value) = "pista") :
    (pending.revealedHint = false →
      handleQuizAnswer stats pending value =
        (["Pista: " ++ hintHalf pending.question.answer ++ "..."],
         some { pending with revealedHint := true }, stats)) ∧
    (pending.revealedHint = true →
      handleQuizAnswer stats pending value =
        (["⚠️ Ya mostré una pista para esta pregunta. Intenta una respuesta."],
         some pending, stats)) ∧
    hintHalf pending.question.answer =
      String.mk (pending.question.answer.data.take
        ⌈(pending.question.answer.length : ℚ) / 2⌉₊) := by
  refine ⟨?_, ?_, ?_⟩
  · intro hRev
    simp only [handleQuizAnswer]
    rw [if_pos hTok, hRev]
    norm_num
  · intro hRev
    simp only [handleQuizAnswer]
    rw [if_pos hTok, hRev]
    norm_num
  · unfold hintHalf
    congr 2
    symm
    rcases Nat.eq_zero_or_pos pending.question.answer.length with h0 | hpos
    · rw [h0]
      norm_num
    · have hm : (pending.question.answer.length + 1) / 2 ≠ 0 := by omega
      rw [Nat.ceil_eq_iff hm]
      set n := pending.question.answer.length
      have h1 : ((n + 1) / 2 - 1) * 2 < n := by omega
      have h2 : n ≤ ((n + 1) / 2) * 2 := by omega
      constructor
      · rw [lt_div_iff₀ (by norm_num : (0:ℚ) < 2)]
        exact_mod_cast h1
      · rw [div_le_iff₀ (by norm_num : (0:ℚ) < 2)]
        exact_mod_cast h2

/-- C4 witness: the first `hint` on the sample question reveals the first
four of eight answer characters, and a second `pista` only warns. -/
theorem quiz_hint_reveal_once_witness :
    handleQuizAnswer ⟨0, 0, 0⟩ ⟨sampleQuestion, 0, false⟩ "hint" =
      (["Pista: " ++ hintHalf sampleQuestion.answer ++ "..."],
       some ⟨sampleQuestion, 0, true⟩, (⟨0, 0, 0⟩ : SessionStats)) ∧
    handleQuizAnswer ⟨0, 0, 0⟩ ⟨sampleQuestion, 1, true⟩ "pista" =
      (["⚠️ Ya mostré una pista para esta pregunta. Intenta una respuesta."],
       some ⟨sampleQuestion, 1, true⟩, (⟨0, 0, 0⟩ : SessionStats)) ∧
    hintHalf sampleQuestion.answer = "Fire" :=
  ⟨(quiz_hint_reveal_once ⟨0, 0, 0⟩ ⟨sampleQuestion, 0, false⟩ "hint"
      (Or.inl (by decide))).1 rfl,
   (quiz_hint_reveal_once ⟨0, 0, 0⟩ ⟨sampleQuestion, 1, true⟩ "pista"
      (Or.inr (by decide))).2.1 rfl,
   by decide⟩

/-- C5: while a quiz is active, a skip token (`skip`/`omitir`) resolves the
round immediately whatever attempts and hint state are: `answered` grows by
one, `correct` is unchanged, `streak` becomes zero, the answer, explanation
and updated status line are emitted, and the pending state becomes Idle. -/
theorem quiz_skip_resolves
    (stats : SessionStats) (pending : PendingQuiz) (value : String)
    (hTok : jsToLower (jsTrim value) = "skip" ∨ jsToLower (jsTrim value) = "omitir") :
    handleQuizAnswer stats pending value =
      (["Pregunta omitida. Respuesta correcta: " ++ pending.question.answer,
        "Explicación: " ++ pending.question.explanation,
        buildSessionStatus ⟨stats.answered + 1, stats.correct, 0⟩],
       none, (⟨stats.answered + 1, stats.correct, 0⟩ : SessionStats)) := by
  have h12 : ¬(jsToLower (jsTrim value) = "hint" ∨ jsToLower (jsTrim value) = "pista") := by
    rcases hTok with h | h <;> rw [h] <;> decide
  simp only [handleQuizAnswer]
  rw [if_neg h12, if_pos hTok]

/-- C5 witness: `  SKIP ` with one attempt used and the hint already shown
still skips immediately. -/
theorem quiz_skip_resolves_witness :
    handleQuizAnswer ⟨4, 2, 2⟩ ⟨sampleQuestion, 1, true⟩ "  SKIP " =
      (["Pregunta omitida. Respuesta correcta: " ++ sampleQuestion.answer,
        "Explicación: " ++ sampleQuestion.explanation,
        buildSessionStatus ⟨5, 2, 0⟩],
       none, (⟨5, 2, 0⟩ : SessionStats)) :=
  quiz_skip_resolves ⟨4, 2, 2⟩ ⟨sampleQuestion, 1, true⟩ "  SKIP " (Or.inl (by decide))

/-! ## Session statistics (claims C6 and C8) -/

/-- One quiz interaction either leaves the statistics alone, or scores a
correct answer, or scores a failed/skipped one. -/
theorem handleQuizAnswer_stats_cases (stats : SessionStats) (pending : PendingQuiz)
    (value : String) :
    (handleQuizAnswer stats pending value).2.2 = stats ∨
    (handleQuizAnswer stats pending value).2.2 =
      ⟨stats.answered + 1, stats.correct + 1, stats.streak + 1⟩ ∨
    (handleQuizAnswer stats pending value).2.2 =
      ⟨stats.answered + 1, stats.correct, 0⟩ := by
  unfold handleQuizAnswer
  by_cases h1 : jsToLower (jsTrim value) = "hint" ∨ jsToLower (jsTrim value) = "pista"
  · rw [if_pos h1]
    cases hr : pending.revealedHint <;> simp [hr]
  · rw [if_neg h1]
    by_cases h3 : jsToLower (jsTrim value) = "skip" ∨ jsToLower (jsTrim value) = "omitir"
    · rw [if_pos h3]; simp
    · rw [if_neg h3]
      by_cases h4 : jsToLower (jsTrim value) = jsToLower pending.question.answer
      · rw [if_pos h4]; simp
      · rw [if_neg h4]
        by_cases h5 : pending.attempts + 1 ≥ 2 <;> simp [h5]

/-- The statistics of one whole submission follow the same three cases. -/
theorem submitLine_stats_cases (store : ContentStore) (r : Nat) (s : Session) (line : String) :
    (submitLine store r s line).stats = s.stats ∨
    (submitLine store r s line).stats =
      ⟨s.stats.answered + 1, s.stats.correct + 1, s.stats.streak + 1⟩ ∨
    (submitLine store r s line).stats =
      ⟨s.stats.answered + 1, s.stats.correct, 0⟩ := by
  by_cases hne : jsTrim line = ""
  · rw [submitLine_empty store r s line hne]
    left; rfl
  · rcases hp : s.pending with _ | pq
    · rw [submitLine_dispatch store r s line hp hne, dispatchCommand_stats]
      left; rfl
    · rw [submitLine_quiz store r s line pq hp hne]
      exact handleQuizAnswer_stats_cases s.stats pq (jsTrim line)

/-- C6: from the initial statistics, every run of submitted lines keeps
`correct ≤ answered`, and each single submission never decreases `answered`
or `correct` while `streak` grows by exactly one, stays equal, or resets to
zero. -/
theorem stats_monotone_invariant (store : ContentStore) :
    (∀ inputs : List (Nat × String),
      (runSession store inputs).stats.correct ≤ (runSession store inputs).stats.answered) ∧
    (∀ (r : Nat) (s : Session) (line : String),
      s.stats.answered ≤ (submitLine store r s line).stats.answered ∧
      s.stats.correct ≤ (submitLine store r s line).stats.correct ∧
      ((submitLine store r s line).stats.streak = s.stats.streak + 1 ∨
       (submitLine store r s line).stats.streak = s.stats.streak ∨
       (submitLine store r s line).stats.streak = 0)) := by
  have step : ∀ (r : Nat) (s : Session) (line : String),
      s.stats.answered ≤ (submitLine store r s line).stats.answered ∧
      s.stats.correct ≤ (submitLine store r s line).stats.correct ∧
      ((submitLine store r s line).stats.streak = s.stats.streak + 1 ∨
       (submitLine store r s line).stats.streak = s.stats.streak ∨
       (submitLine store r s line).stats.streak = 0) ∧
      (s.stats.correct ≤ s.stats.answered →
        (submitLine store r s line).stats.correct ≤
          (submitLine store r s line).stats.answered) := by
    intro r s line
    rcases submitLine_stats_cases store r s line with h | h | h <;>
      rw [h] <;> refine ⟨?_, ?_, ?_, ?_⟩ <;> simp <;> omega
  constructor
  · intro inputs
    suffices h : ∀ (s : Session), s.stats.correct ≤ s.stats.answered →
        (inputs.foldl (fun s p => submitLine store p.1 s p.2) s).stats.correct ≤
        (inputs.foldl (fun s p => submitLine store p.1 s p.2) s).stats.answered by
      exact h initialSession (by simp [initialSession])
    induction inputs with
    | nil => intro s hs; exact hs
    | cons p rest ih =>
      intro s hs
      exact ih (submitLine store p.1 s p.2) ((step p.1 s p.2).2.2.2 hs)
  · intro r s line
    exact ⟨(step r s line).1, (step r s line).2.1, (step r s line).2.2.1⟩

/-- Printing an integer that is a natural number cast prints the natural. -/
theorem toString_intCast (n : ℕ) : toString ((n : ℤ)) = toString n := rfl

/-- The rounded rational accuracy equals a closed natural-division form. -/
theorem math_round_frac (c a : ℕ) (ha : a ≠ 0) :
    mathRound ((c : ℚ) / (a : ℚ) * 100) = ((200 * c + a) / (2 * a) : ℕ) := by
  unfold mathRound
  have hb : (a : ℚ) ≠ 0 := Nat.cast_ne_zero.mpr ha
  have hq : (c : ℚ) / (a : ℚ) * 100 + 1 / 2 = ((200 * c + a : ℕ) : ℚ) / ((2 * a : ℕ) : ℚ) := by
    push_cast
    field_simp
    ring
  rw [hq, ← Int.natCast_floor_eq_floor (by positivity), Nat.floor_div_eq_div]

/-- `sessionAccuracy` in closed natural form. -/
theorem sessionAccuracy_closed (stats : SessionStats) :
    sessionAccuracy stats =
      ((if stats.answered = 0 then 0
        else (200 * stats.correct + stats.answered) / (2 * stats.answered) : ℕ) : ℤ) := by
  unfold sessionAccuracy
  by_cases h0 : stats.answered = 0
  · rw [if_pos h0, if_pos h0]
    rfl
  · rw [if_neg h0, if_neg h0, math_round_frac _ _ h0]

/-- C8: the status line reports `answered`, `correct`, the accuracy (zero
when nothing is answered, otherwise `round(correct / answered * 100)`,
equal to the closed natural form below) as a percentage, and `streak`, in
that order; with `answered = 0` the accuracy renders as `0%`. -/
theorem status_line_formula (stats : SessionStats) :
    buildSessionStatus stats =
      "📊 Sesión | Resueltas: " ++ toString stats.answered ++
      " | Correctas: " ++ toString stats.correct ++
      " | Precisión: " ++
      toString (if stats.answered = 0 then (0 : ℕ)
        else (200 * stats.correct + stats.answered) / (2 * stats.answered)) ++
      "% | Racha: " ++ toString stats.streak ∧
    buildSessionStatus ⟨0, stats.correct, stats.streak⟩ =
      "📊 Sesión | Resueltas: " ++ "0" ++ " | Correctas: " ++ toString stats.correct ++
      " | Precisión: " ++ "0" ++ "% | Racha: " ++ toString stats.streak := by
  constructor
  · unfold buildSessionStatus
    rw [sessionAccuracy_closed, toString_intCast]
  · unfold buildSessionStatus
    rw [sessionAccuracy_closed]
    with_unfolding_all rfl

/-! ## Command recall buffer (claim C9) -/

/-- Removing the copies of a present element from a duplicate-free list
shortens it by exactly one. -/
theorem filter_ne_length (l : List String) (x : String) (hn : l.Nodup) (hm : x ∈ l) :
    (l.filter (fun item => item ≠ x)).length + 1 = l.length := by
  induction l with
  | nil => cases hm
  | cons a t ih =>
    simp only [List.filter_cons]
    rcases List.mem_cons.mp hm with rfl | hmt
    · have hx : x ∉ t := (List.nodup_cons.mp hn).1
      have hdx : (decide (x ≠ x)) = false := by simp
      rw [hdx]
      simp
      intro b hb
      rintro rfl
      exact hx hb
    · have ha : a ≠ x := by
        rintro rfl
        exact (List.nodup_cons.mp hn).1 hmt
      have hda : (decide (a ≠ x)) = true := by simp [ha]
      rw [hda]
      have ih2 := ih (List.nodup_cons.mp hn).2 hmt
      simp only [if_true, List.length_cons]
      omega

/-- The recall buffer of one submission is either untouched (empty line) or
the deduplicated push capped at thirty entries. -/
theorem submitLine_buffer_cases (store : ContentStore) (r : Nat) (s : Session) (line : String) :
    (jsTrim line = "" ∧ (submitLine store r s line).commandHistory = s.commandHistory) ∨
    (jsTrim line ≠ "" ∧
      (submitLine store r s line).commandHistory =
        (jsTrim line :: s.commandHistory.filter (fun item => item ≠ jsTrim line)).take
          MAX_HISTORY_COMMANDS) := by
  by_cases hne : jsTrim line = ""
  · left
    rw [submitLine_empty store r s line hne]
    exact ⟨hne, rfl⟩
  · right
    refine ⟨hne, ?_⟩
    rcases hp : s.pending with _ | pq
    · rw [submitLine_dispatch store r s line hp hne, dispatchCommand_commandHistory]
    · rw [submitLine_quiz store r s line pq hp hne]

/-- The buffer bound, duplicate freedom and absence of the empty line are
preserved by every submission. -/
theorem buffer_inv_step (store : ContentStore) (r : Nat) (s : Session) (line : String)
    (h : s.commandHistory.length ≤ 30 ∧ s.commandHistory.Nodup ∧ "" ∉ s.commandHistory) :
    (submitLine store r s line).commandHistory.length ≤ 30 ∧
    (submitLine store r s line).commandHistory.Nodup ∧
    "" ∉ (submitLine store r s line).commandHistory := by
  rcases submitLine_buffer_cases store r s line with ⟨_, h1⟩ | ⟨hne, h1⟩
  · rw [h1]; exact h
  · rw [h1]
    have hsub := List.take_sublist MAX_HISTORY_COMMANDS
      (jsTrim line :: s.commandHistory.filter (fun item => item ≠ jsTrim line))
    have hnotmem : jsTrim line ∉ s.commandHistory.filter (fun item => item ≠ jsTrim line) := by
      intro hmem
      have := (List.mem_filter.mp hmem).2
      simp at this
    have hnodup : (jsTrim line :: s.commandHistory.filter
        (fun item => item ≠ jsTrim line)).Nodup :=
      List.nodup_cons.mpr ⟨hnotmem, h.2.1.filter _⟩
    refine ⟨?_, ?_, ?_⟩
    · rw [List.length_take]
      simp [MAX_HISTORY_COMMANDS]
    · exact hsub.nodup hnodup
    · intro hmem
      rcases List.mem_cons.mp (hsub.subset hmem) with he | hf
      · exact hne he.symm
      · exact h.2.2 (List.mem_filter.mp hf).1

/-- C9: after every sequence of submitted lines, the recall buffer holds at
most thirty pairwise-distinct entries, and resubmitting a line already in
the buffer moves it to the front without changing the length. -/
theorem recall_buffer_invariant (store : ContentStore) (inputs : List (Nat × String)) :
    (runSession store inputs).commandHistory.length ≤ 30 ∧
    (runSession store inputs).commandHistory.Nodup ∧
    (∀ (r : Nat) (line : String),
      jsTrim line ∈ (runSession store inputs).commandHistory →
      (submitLine store r (runSession store inputs) line).commandHistory.length =
        (runSession store inputs).commandHistory.length ∧
      (submitLine store r (runSession store inputs) line).commandHistory.head? =
        some (jsTrim line)) := by
  have hinv : (runSession store inputs).commandHistory.length ≤ 30 ∧
      (runSession store inputs).commandHistory.Nodup ∧
      "" ∉ (runSession store inputs).commandHistory := by
    unfold runSession
    suffices h : ∀ (s : Session),
        (s.commandHistory.length ≤ 30 ∧ s.commandHistory.Nodup ∧ "" ∉ s.commandHistory) →
        ((inputs.foldl (fun s p => submitLine store p.1 s p.2) s).commandHistory.length ≤ 30 ∧
         (inputs.foldl (fun s p => submitLine store p.1 s p.2) s).commandHistory.Nodup ∧
         "" ∉ (inputs.foldl (fun s p => submitLine store p.1 s p.2) s).commandHistory) by
      exact h initialSession (by simp [initialSession])
    induction inputs with
    | nil => intro s hs; exact hs
    | cons p rest ih =>
      intro s hs
      exact ih (submitLine store p.1 s p.2) (buffer_inv_step store p.1 s p.2 hs)
  refine ⟨hinv.1, hinv.2.1, ?_⟩
  intro r line hmem
  have hne : jsTrim line ≠ "" := by
    rintro he
    exact hinv.2.2 (he ▸ hmem)
  rcases submitLine_buffer_cases store r (runSession store inputs) line with ⟨he, _⟩ | ⟨_, h1⟩
  · exact absurd he hne
  · rw [h1]
    have hlen : (jsTrim line :: (runSession store inputs).commandHistory.filter
        (fun item => item ≠ jsTrim line)).length =
        (runSession store inputs).commandHistory.length := by
      simp only [List.length_cons]
      exact filter_ne_length (runSession store inputs).commandHistory (jsTrim line)
        hinv.2.1 hmem
    have hle : (jsTrim line :: (runSession store inputs).commandHistory.filter
        (fun item => item ≠ jsTrim line)).length ≤ MAX_HISTORY_COMMANDS := by
      rw [hlen]; exact hinv.1
    rw [List.take_of_length_le hle]
    exact ⟨hlen, rfl⟩

/-- C9 witness: after `help` then `topics`, resubmitting `help` moves it to
the front and keeps the buffer at two entries. -/
theorem recall_buffer_invariant_witness :
    (submitLine sampleStore 0 (runSession sampleStore [(0, "help"), (0, "topics")])
      "help").commandHistory.length =
      (runSession sampleStore [(0, "help"), (0, "topics")]).commandHistory.length ∧
    (submitLine sampleStore 0 (runSession sampleStore [(0, "help"), (0, "topics")])
      "help").commandHistory.head? = some (jsTrim "help") :=
  (recall_buffer_invariant sampleStore [(0, "help"), (0, "topics")]).2.2 0 "help" (by decide)

/-! ## The clear command (claim C1) -/

/-- The dispatcher maps the literal line `clear` to the confirmation output
plus the history-reset effect. -/
theorem handleCommand_clear (store : ContentStore) (r : Nat) (stats : SessionStats) :
    handleCommand store r stats "clear" =
      some (["Pantalla limpia. Continuemos."], .resetHistory) := rfl

/-- C1 counterexample: with a quiz pending, the line `clear` never reaches
the dispatcher; it is consumed as a (wrong) quiz answer, so the pending
quiz survives and the history is not reset. -/
theorem clear_during_quiz_counterexample :
    (submitLine sampleStore 0 quizActiveSession "clear").pending =
      some ⟨sampleQuestion, 1, false⟩ ∧
    (submitLine sampleStore 0 quizActiveSession "clear").pending ≠ none ∧
    (submitLine sampleStore 0 quizActiveSession "clear").history ≠
      initialHistory ++ [mkAssistant ["Pantalla limpia. Continuemos."]] := by
  refine ⟨by decide, by decide, by decide⟩

/-- C1 (amended to sessions with no pending quiz): submitting `clear` then
replaces the entire history with the boot entry followed by the
confirmation line, and leaves no pending quiz, whatever the prior history
length. -/
theorem clear_resets_session (store : ContentStore) (r : Nat) (s : Session)
    (h : s.pending = none) :
    (submitLine store r s "clear").history =
      initialHistory ++ [mkAssistant ["Pantalla limpia. Continuemos."]] ∧
    (submitLine store r s "clear").pending = none := by
  have hne : jsTrim "clear" ≠ "" := by decide
  rw [submitLine_dispatch store r s "clear" h hne]
  unfold dispatchCommand
  rw [show jsTrim "clear" = "clear" from rfl, handleCommand_clear]
  exact ⟨rfl, rfl⟩

/-- C1 witness: `clear` on a session with three extra history entries. -/
theorem clear_resets_session_witness :
    (submitLine sampleStore 0
      { initialSession with
        history := initialHistory ++ [mkAssistant ["a"], mkAssistant ["b"], mkAssistant ["c"]] }
      "clear").history =
      initialHistory ++ [mkAssistant ["Pantalla limpia. Continuemos."]] ∧
    (submitLine sampleStore 0
      { initialSession with
        history := initialHistory ++ [mkAssistant ["a"], mkAssistant ["b"], mkAssistant ["c"]] }
      "clear").pending = none :=
  clear_resets_session sampleStore 0
    { initialSession with
      history := initialHistory ++ [mkAssistant ["a"], mkAssistant ["b"], mkAssistant ["c"]] }
    rfl

/-! ## The line parser (claim C7) -/

/-- `split(" ")` never returns an empty group list. -/
theorem js_split_ne_nil (cs : List Char) : jsSplitSpaceChars cs ≠ [] := by
  cases cs with
  | nil => simp [jsSplitSpaceChars]
  | cons c rest =>
    simp only [jsSplitSpaceChars]
    rcases h : jsSplitSpaceChars rest with _ | ⟨g, gs⟩
    · simp
    · by_cases hc : c = ' ' <;> simp [hc]

/-- The head group of `split(" ")` is the text before the first space; the
remaining groups split the text after it. -/
theorem js_split_decomp (cs : List Char) :
    jsSplitSpaceChars cs =
      cs.takeWhile (fun c => c ≠ ' ') ::
        (match cs.dropWhile (fun c => c ≠ ' ') with
         | [] => ([] : List (List Char))
         | _ :: after => jsSplitSpaceChars after) := by
  induction cs with
  | nil => rfl
  | cons c rest ih =>
    simp only [jsSplitSpaceChars]
    rcases h : jsSplitSpaceChars rest with _ | ⟨g, gs⟩
    · exact absurd h (js_split_ne_nil rest)
    · rw [h] at ih
      injection ih with ih1 ih2
      by_cases hc : c = ' '
      · subst hc
        simp only [if_pos rfl, List.takeWhile, List.dropWhile]
        norm_num
        rw [← h]
      · simp only [if_neg hc, List.takeWhile, List.dropWhile]
        have hcb : (decide (c ≠ ' ')) = true := by simp [hc]
        rw [hcb]
        simp only [cond_true]
        rw [ih1, ih2]

/-- `join(" ")` undoes `split(" ")`. -/
theorem js_join_split (cs : List Char) :
    jsJoinChars [' '] (jsSplitSpaceChars cs) = cs := by
  induction cs with
  | nil => rfl
  | cons c rest ih =>
    simp only [jsSplitSpaceChars]
    rcases h : jsSplitSpaceChars rest with _ | ⟨g, gs⟩
    · exact absurd h (js_split_ne_nil rest)
    · rw [h] at ih
      by_cases hc : c = ' '
      · subst hc
        simp only [if_pos rfl]
        show [] ++ [' '] ++ jsJoinChars [' '] (g :: gs) = ' ' :: rest
        simp [ih]
      · simp only [if_neg hc]
        cases gs with
        | nil =>
          show c :: g = c :: rest
          simpa using ih
        | cons g2 t2 =>
          show (c :: g) ++ [' '] ++ jsJoinChars [' '] (g2 :: t2) = c :: rest
          rw [← ih]
          rfl

/-- Strings append as their character lists append. -/
theorem mk_append (a b : List Char) : String.mk a ++ String.mk b = String.mk (a ++ b) := rfl

/-- `jsJoin` over packed groups is `jsJoinChars` on the raw groups. -/
theorem jsJoin_map_mk (gs : List (List Char)) :
    jsJoin " " (gs.map String.mk) = String.mk (jsJoinChars [' '] gs) := by
  match gs with
  | [] => rfl
  | [g] => rfl
  | g :: g2 :: t =>
    show String.mk g ++ " " ++ jsJoin " " ((g2 :: t).map String.mk) = _
    rw [jsJoin_map_mk (g2 :: t)]
    show String.mk g ++ String.mk [' '] ++ String.mk (jsJoinChars [' '] (g2 :: t)) = _
    rw [mk_append, mk_append]
    rfl

/-- The `split(" ")`/`join(" ")` pipeline of `handleCommand` computes the
prefix before the first space (lower-cased) and the trimmed suffix after
it. -/
theorem parseCommandLine_characterization (t : String) :
    parseCommandLine t =
      (jsToLower (String.mk (t.data.takeWhile (fun c => c ≠ ' '))),
       jsTrim (String.mk ((t.data.dropWhile (fun c => c ≠ ' ')).drop 1))) := by
  unfold parseCommandLine jsSplitOnSpace
  rw [js_split_decomp]
  simp only [List.map]
  rw [jsJoin_map_mk]
  congr 2
  rcases h : t.data.dropWhile (fun c => c ≠ ' ') with _ | ⟨d, after⟩
  · rfl
  · show String.mk (jsJoinChars [' '] (jsSplitSpaceChars after)) = String.mk after
    exact congrArg String.mk (js_join_split after)

/-- C7 counterexample: the code splits only on the space character, not on
a whitespace run: with an interior tab the whole line becomes the command
token, where the claim predicts command `help` with argument `x`. -/
theorem parse_tab_counterexample :
    parseLine "help\tx" = some ("help\tx", "") ∧
    parseLine "help\tx" ≠ some ("help", "x") := by
  refine ⟨by decide, by decide⟩

/-- C7 (amended from whitespace run to the space character): the parser
trims the raw line; an empty result causes no action at all; otherwise the
command token is the text before the first space, lower-cased, and the
argument string is the text after the first space, trimmed, case
preserved. -/
theorem parse_trims_and_splits_on_space (rawInput : String) :
    (jsTrim rawInput = "" →
      parseLine rawInput = none ∧
      ∀ (store : ContentStore) (r : Nat) (s : Session), submitLine store r s rawInput = s) ∧
    (jsTrim rawInput ≠ "" →
      parseLine rawInput =
        some (jsToLower (String.mk ((jsTrim rawInput).data.takeWhile (fun c => c ≠ ' '))),
          jsTrim (String.mk (((jsTrim rawInput).data.dropWhile (fun c => c ≠ ' ')).drop 1)))) := by
  constructor
  · intro he
    constructor
    · unfold parseLine normalizeInput
      rw [if_pos he]
    · intro store r s
      exact submitLine_empty store r s rawInput he
  · intro hne
    unfold parseLine normalizeInput
    rw [if_neg hne, parseCommandLine_characterization]

/-- C7 witness: a blank line is dropped; a padded line with doubled spaces
and mixed case parses into the lower-cased command and the original-case
argument. -/
theorem parse_trims_and_splits_on_space_witness :
    parseLine "   " = none ∧
    parseLine "  LESSON  Redes Azul  " = some ("lesson", "Redes Azul") := by
  constructor
  · exact ((parse_trims_and_splits_on_space "   ").1 (by decide)).1
  · have h := (parse_trims_and_splits_on_space "  LESSON  Redes Azul  ").2 (by decide)
    rw [h]
    decide

/-! ## Resources and labs with an unresolvable topic (claim C10) -/

/-- C10: for `resources`/`labs` (and their synonyms), a nonempty argument
that resolves to no topic yields exactly the no-argument full cross-topic
listing; no not-found message exists on this path. -/
theorem resources_labs_fallback (store : ContentStore) (r : Nat) (stats : SessionStats)
    (arg : String) (hne : arg ≠ "") (hmiss : store.findTopicByAlias arg = none) :
    dispatchParsed store r stats "resources" arg =
      dispatchParsed store r stats "resources" "" ∧
    dispatchParsed store r stats "recursos" arg =
      dispatchParsed store r stats "recursos" "" ∧
    dispatchParsed store r stats "labs" arg = dispatchParsed store r stats "labs" "" ∧
    dispatchParsed store r stats "lab" arg = dispatchParsed store r stats "lab" "" := by
  refine ⟨?_, ?_, ?_, ?_⟩ <;>
    · unfold dispatchParsed
      simp [hne, hmiss]

/-- C10 witness: `resources nada` and `labs nada` on the sample catalog
print the same full listings as the bare commands. -/
theorem resources_labs_fallback_witness :
    dispatchParsed sampleStore 0 ⟨0, 0, 0⟩ "resources" "nada" =
      dispatchParsed sampleStore 0 ⟨0, 0, 0⟩ "resources" "" ∧
    dispatchParsed sampleStore 0 ⟨0, 0, 0⟩ "recursos" "nada" =
      dispatchParsed sampleStore 0 ⟨0, 0, 0⟩ "recursos" "" ∧
    dispatchParsed sampleStore 0 ⟨0, 0, 0⟩ "labs" "nada" =
      dispatchParsed sampleStore 0 ⟨0, 0, 0⟩ "labs" "" ∧
    dispatchParsed sampleStore 0 ⟨0, 0, 0⟩ "lab" "nada" =
      dispatchParsed sampleStore 0 ⟨0, 0, 0⟩ "lab" "" :=
  resources_labs_fallback sampleStore 0 ⟨0, 0, 0⟩ "nada" (by decide) (by decide)
